import Mathlib

/-
Verification of the runtime borrow-checking model in ownership.h
(RustBorrowChecker-Clang-Plugin).

The C++ core consists of three class templates:
  Unique<T>      - the owner: a raw pointer plus two borrow-tracking fields
                   (mutable int immutable_borrows, mutable bool mutable_borrowed);
  Borrowed<T>    - a copyable shared-borrow handle (owner back-reference + data);
  BorrowedMut<T> - a move-only exclusive-borrow handle (nullable owner
                   back-reference + data).

Each C++ member function is translated below into a pure Lean function on an
explicit state.  Functions that can throw BorrowError return the error code
together with the state of the object at the moment the exception escapes
(in the source every throw happens before any field mutation of the throwing
path, which the definitions reproduce statement by statement).  The C++ int
counter is modelled as Int; the raw pointer T* is modelled as Option A with
none standing for nullptr.
-/

namespace RustBorrow

/-- The ErrorCode enum of BorrowError in ownership.h, constructor for
constructor. -/
inductive ErrorCode where
  | DestroyWithActiveBorrows
  | MoveWithActiveBorrows
  | MoveIntoWithActiveBorrows
  | MoveFromWithActiveBorrows
  | MutableBorrowOfImmutablyBorrowed
  | MutableBorrowOfMutablyBorrowed
  | ImmutableBorrowOfMutablyBorrowed
  | AccessWhileBorrowed
  | AccessWhileMutablyBorrowed
  | ReleaseNonExistentImmutableBorrow
  | ReleaseNonExistentMutableBorrow
deriving DecidableEq, Repr

/-- Equality of Except results is decidable when both components are. -/
instance {ε σ : Type} [DecidableEq ε] [DecidableEq σ] : DecidableEq (Except ε σ) := fun a b => by
  cases a <;> cases b
  case error.error e1 e2 => exact decidable_of_iff (e1 = e2) (by simp)
  case error.ok e v => exact Decidable.isFalse (by simp)
  case ok.error v e => exact Decidable.isFalse (by simp)
  case ok.ok v1 v2 => exact decidable_of_iff (v1 = v2) (by simp)

/-- The observable state of a Unique<T> object: the data pointer (none is
nullptr), the immutable borrow count (a C++ int) and the mutable borrow
flag. -/
structure UniqueState (α : Type) where
  data : Option α
  immutable_borrows : Int
  mutable_borrowed : Bool
deriving DecidableEq, Repr

variable {α : Type}

/-- Unique(T *ptr) : data(ptr); both borrow fields use their member
initialisers (0 and false). -/
def mkUnique (ptr : Option α) : UniqueState α :=
  { data := ptr, immutable_borrows := 0, mutable_borrowed := false }

/-- Unique::acquireImmutableBorrow: throws MutableBorrowOfMutablyBorrowed if
mutable_borrowed, otherwise increments immutable_borrows.  The second
component is the state of the object when the call exits, normally or by
exception. -/
def acquireImmutableBorrow (s : UniqueState α) :
    Except ErrorCode Unit × UniqueState α :=
  if s.mutable_borrowed then
    (Except.error ErrorCode.MutableBorrowOfMutablyBorrowed, s)
  else
    (Except.ok (), { s with immutable_borrows := s.immutable_borrows + 1 })

/-- Unique::releaseBorrowImmutable: throws ReleaseNonExistentImmutableBorrow
if immutable_borrows <= 0, otherwise decrements immutable_borrows. -/
def releaseBorrowImmutable (s : UniqueState α) :
    Except ErrorCode Unit × UniqueState α :=
  if s.immutable_borrows ≤ 0 then
    (Except.error ErrorCode.ReleaseNonExistentImmutableBorrow, s)
  else
    (Except.ok (), { s with immutable_borrows := s.immutable_borrows - 1 })

/-- Unique::acquireMutableBorrow: throws MutableBorrowOfImmutablyBorrowed if
immutable_borrows > 0 or mutable_borrowed (one combined check and one error
code for both causes), otherwise sets mutable_borrowed to true. -/
def acquireMutableBorrow (s : UniqueState α) :
    Except ErrorCode Unit × UniqueState α :=
  if 0 < s.immutable_borrows ∨ s.mutable_borrowed then
    (Except.error ErrorCode.MutableBorrowOfImmutablyBorrowed, s)
  else
    (Except.ok (), { s with mutable_borrowed := true })

/-- Unique::releaseMutableBorrow: throws ReleaseNonExistentMutableBorrow if
not mutable_borrowed, otherwise clears the flag. -/
def releaseMutableBorrow (s : UniqueState α) :
    Except ErrorCode Unit × UniqueState α :=
  if s.mutable_borrowed then
    (Except.ok (), { s with mutable_borrowed := false })
  else
    (Except.error ErrorCode.ReleaseNonExistentMutableBorrow, s)

/-- Unique::~Unique: throws DestroyWithActiveBorrows if immutable_borrows > 0
or mutable_borrowed; otherwise runs delete data (success).  Neither path
mutates the borrow fields. -/
def destroyUnique (s : UniqueState α) :
    Except ErrorCode Unit × UniqueState α :=
  if 0 < s.immutable_borrows ∨ s.mutable_borrowed then
    (Except.error ErrorCode.DestroyWithActiveBorrows, s)
  else
    (Except.ok (), s)

/-- Unique::Unique(Unique &&other): the initialiser list copies the three
fields of other into this, then the constructor body throws
MoveWithActiveBorrows if the copied borrow fields are nonzero (other is left
untouched in that case), otherwise nulls and zeroes other.  The first
component is the constructed object on success, the second is the state of
other when the call exits. -/
def moveConstruct (other : UniqueState α) :
    Except ErrorCode (UniqueState α) × UniqueState α :=
  if 0 < other.immutable_borrows ∨ other.mutable_borrowed then
    (Except.error ErrorCode.MoveWithActiveBorrows, other)
  else
    (Except.ok { data := other.data, immutable_borrows := other.immutable_borrows,
                 mutable_borrowed := other.mutable_borrowed },
     { data := none, immutable_borrows := 0, mutable_borrowed := false })

/-- Unique::operator=(Unique &&other), on the this != addressof other path:
first throws MoveIntoWithActiveBorrows if the destination has active borrows,
then throws MoveFromWithActiveBorrows if the source has active borrows, and
otherwise deletes the destination resource, transfers data and borrow fields
from the source and zeroes the source.  The result pairs the outcome with the
exit states of (destination, source). -/
def moveAssign (dst src : UniqueState α) :
    Except ErrorCode Unit × UniqueState α × UniqueState α :=
  if 0 < dst.immutable_borrows ∨ dst.mutable_borrowed then
    (Except.error ErrorCode.MoveIntoWithActiveBorrows, dst, src)
  else if 0 < src.immutable_borrows ∨ src.mutable_borrowed then
    (Except.error ErrorCode.MoveFromWithActiveBorrows, dst, src)
  else
    (Except.ok (),
     { data := src.data, immutable_borrows := src.immutable_borrows,
       mutable_borrowed := src.mutable_borrowed },
     { data := none, immutable_borrows := 0, mutable_borrowed := false })

/-- Unique::operator-> (non-const): throws AccessWhileBorrowed if
immutable_borrows > 0 or mutable_borrowed, otherwise returns data. -/
def opArrow (s : UniqueState α) : Except ErrorCode (Option α) :=
  if 0 < s.immutable_borrows ∨ s.mutable_borrowed then
    Except.error ErrorCode.AccessWhileBorrowed
  else
    Except.ok s.data

/-- Unique::operator-> const: throws AccessWhileMutablyBorrowed only if
mutable_borrowed, otherwise returns data. -/
def opArrowConst (s : UniqueState α) : Except ErrorCode (Option α) :=
  if s.mutable_borrowed then
    Except.error ErrorCode.AccessWhileMutablyBorrowed
  else
    Except.ok s.data

/-- Unique::operator* (non-const): same gate as the non-const operator->,
yielding the pointer whose pointee is returned by reference. -/
def opStar (s : UniqueState α) : Except ErrorCode (Option α) :=
  if 0 < s.immutable_borrows ∨ s.mutable_borrowed then
    Except.error ErrorCode.AccessWhileBorrowed
  else
    Except.ok s.data

/-- Unique::operator* const: same gate as the const operator->. -/
def opStarConst (s : UniqueState α) : Except ErrorCode (Option α) :=
  if s.mutable_borrowed then
    Except.error ErrorCode.AccessWhileMutablyBorrowed
  else
    Except.ok s.data

/-- Unique::get (non-const): same gate as the non-const operator->. -/
def get (s : UniqueState α) : Except ErrorCode (Option α) :=
  if 0 < s.immutable_borrows ∨ s.mutable_borrowed then
    Except.error ErrorCode.AccessWhileBorrowed
  else
    Except.ok s.data

/-- Unique::get const: same gate as the const operator->. -/
def getConst (s : UniqueState α) : Except ErrorCode (Option α) :=
  if s.mutable_borrowed then
    Except.error ErrorCode.AccessWhileMutablyBorrowed
  else
    Except.ok s.data

/-- The state of a Borrowed<T> handle restricted to its data pointer (the
owner back-reference is tracked separately where several owners are in
play). -/
structure BorrowedState (α : Type) where
  data : Option α
deriving DecidableEq, Repr

/-- Borrowed::get, operator-> and operator* all return the stored data
pointer unconditionally. -/
def BorrowedState.get (h : BorrowedState α) : Option α := h.data

/-- Unique::borrow: constructs Borrowed(this, data); the Borrowed constructor
stores the owner back-reference and the data pointer and then calls
acquireImmutableBorrow, whose exception prevents construction of the
handle. -/
def borrow (s : UniqueState α) :
    Except ErrorCode (BorrowedState α) × UniqueState α :=
  match acquireImmutableBorrow s with
  | (Except.ok _, s1) => (Except.ok { data := s.data }, s1)
  | (Except.error e, s1) => (Except.error e, s1)

/-- Unique::borrow_mut constructs BorrowedMut(this, data), whose constructor
calls acquireMutableBorrow; the exception prevents construction. -/
def borrow_mut (s : UniqueState α) :
    Except ErrorCode (BorrowedState α) × UniqueState α :=
  match acquireMutableBorrow s with
  | (Except.ok _, s1) => (Except.ok { data := s.data }, s1)
  | (Except.error e, s1) => (Except.error e, s1)

/-! ### Two-owner worlds for the handle operations

Borrowed::operator= and BorrowedMut::operator=(BorrowedMut&&) can involve two
distinct Unique owners through the handle back-references, so those
operations are stated over a world of two owner slots addressed by a
Boolean identifier. -/

/-- Identifier of one of two Unique owner objects. -/
abbrev OwnerId := Bool

/-- A world of two Unique owner objects. -/
structure World (α : Type) where
  left : UniqueState α
  right : UniqueState α
deriving DecidableEq, Repr

/-- Read the owner slot named by an identifier. -/
def World.get (w : World α) (o : OwnerId) : UniqueState α :=
  if o then w.right else w.left

/-- Write the owner slot named by an identifier. -/
def World.set (w : World α) (o : OwnerId) (s : UniqueState α) : World α :=
  if o then { w with right := s } else { w with left := s }

/-- The state of a Borrowed<T> handle with its owner back-reference made
explicit as an identifier into a World. -/
structure BorrowedHandle (α : Type) where
  owner : OwnerId
  data : Option α
deriving DecidableEq, Repr

/-- Borrowed::operator=(const Borrowed &other) on the this != addressof other
path: calls releaseBorrowImmutable on the current owner (an exception escapes
with the handle unchanged), then overwrites owner and data with the fields of
other, then calls acquireImmutableBorrow on the new owner (an exception at
this point escapes with the release already performed and the handle already
reassigned, exactly as in the source).  Returns the outcome, the world at
exit and the handle at exit. -/
def borrowedCopyAssign (w : World α) (h other : BorrowedHandle α) :
    Except ErrorCode Unit × World α × BorrowedHandle α :=
  match releaseBorrowImmutable (w.get h.owner) with
  | (Except.error e, s1) => (Except.error e, w.set h.owner s1, h)
  | (Except.ok _, s1) =>
      let w1 := w.set h.owner s1
      let h1 : BorrowedHandle α := { owner := other.owner, data := other.data }
      match acquireImmutableBorrow (w1.get h1.owner) with
      | (Except.error e, s2) => (Except.error e, w1.set h1.owner s2, h1)
      | (Except.ok _, s2) => (Except.ok (), w1.set h1.owner s2, h1)

/-- The state of a BorrowedMut<T> handle: the owner back-reference is
nullable (nulled by move operations) and the data pointer is stored
alongside. -/
structure BorrowedMutHandle (α : Type) where
  owner : Option OwnerId
  data : Option α
deriving DecidableEq, Repr

/-- BorrowedMut::operator=(BorrowedMut &&other) on the this != addressof
other path: if the target still holds a live owner back-reference it calls
releaseMutableBorrow on that owner (an exception escapes with nothing else
changed), then takes over the owner and data of the source and nulls both
fields of the source.  Returns the outcome, the world at exit, the target at
exit and the source at exit. -/
def borrowedMutMoveAssign (w : World α) (target source : BorrowedMutHandle α) :
    Except ErrorCode Unit × World α × BorrowedMutHandle α × BorrowedMutHandle α :=
  match target.owner with
  | some o =>
      match releaseMutableBorrow (w.get o) with
      | (Except.error e, s1) => (Except.error e, w.set o s1, target, source)
      | (Except.ok _, s1) =>
          (Except.ok (), w.set o s1,
           { owner := source.owner, data := source.data },
           { owner := none, data := none })
  | none =>
      (Except.ok (), w,
       { owner := source.owner, data := source.data },
       { owner := none, data := none })

/-- BorrowedMut::~BorrowedMut: calls releaseMutableBorrow on the owner only
if the back-reference is non-null; a null back-reference makes destruction a
no-op. -/
def borrowedMutDestruct (w : World α) (h : BorrowedMutHandle α) :
    Except ErrorCode Unit × World α :=
  match h.owner with
  | some o =>
      match releaseMutableBorrow (w.get o) with
      | (r, s1) => (r, w.set o s1)
  | none => (Except.ok (), w)

/-! ### Single-owner trace semantics

For the state invariant, the effect of every operation of the model on one
fixed Unique owner is collected into a step function over operation labels.
Moves involve a second owner object, whose state is carried by the label. -/

/-- One operation of the model as it affects a single Unique owner.  The two
move-assignment labels carry the state of the owner object on the other side
of the assignment. -/
inductive OwnerOp (α : Type) where
  | acquireImm
  | releaseImm
  | acquireMut
  | releaseMut
  | destroy
  | moveAssignIntoFrom (src : UniqueState α)
  | moveAssignOutTo (dst : UniqueState α)
  | moveCtorOut
  | accessMut
  | accessConst
deriving DecidableEq, Repr

/-- The state of the tracked owner after one operation, whether the
operation succeeds or throws (direct accesses never mutate the borrow
fields). -/
def stepOwner (s : UniqueState α) : OwnerOp α → UniqueState α
  | OwnerOp.acquireImm => (acquireImmutableBorrow s).2
  | OwnerOp.releaseImm => (releaseBorrowImmutable s).2
  | OwnerOp.acquireMut => (acquireMutableBorrow s).2
  | OwnerOp.releaseMut => (releaseMutableBorrow s).2
  | OwnerOp.destroy => (destroyUnique s).2
  | OwnerOp.moveAssignIntoFrom src => (moveAssign s src).2.1
  | OwnerOp.moveAssignOutTo dst => (moveAssign dst s).2.2
  | OwnerOp.moveCtorOut => (moveConstruct s).2
  | OwnerOp.accessMut => s
  | OwnerOp.accessConst => s

/-- The BorrowState invariant: the shared count is never negative and the
exclusive flag is never set while the shared count is positive. -/
def Inv (s : UniqueState α) : Prop :=
  0 ≤ s.immutable_borrows ∧ ¬(s.mutable_borrowed ∧ 0 < s.immutable_borrows)

instance (s : UniqueState α) : Decidable (Inv s) := by
  unfold Inv; exact inferInstance

/-- Side condition on an operation label: an owner state carried by a
move-into label must itself be the state of a real owner object, hence
satisfy the invariant. -/
def OwnerOpOK : OwnerOp α → Prop
  | OwnerOp.moveAssignIntoFrom src => Inv src
  | _ => True

instance (op : OwnerOp α) : Decidable (OwnerOpOK op) := by
  cases op <;> unfold OwnerOpOK <;> exact inferInstance

/-- Every single step preserves the BorrowState invariant. -/
theorem inv_stepOwner (s : UniqueState α) (op : OwnerOp α)
    (hs : Inv s) (hop : OwnerOpOK op) : Inv (stepOwner s op) := by
  obtain ⟨h0, h1⟩ := hs
  cases op with
  | acquireImm =>
      simp only [stepOwner, acquireImmutableBorrow]
      split
      · exact ⟨h0, h1⟩
      · rename_i hc
        exact ⟨by dsimp only; omega, by simp_all⟩
  | releaseImm =>
      simp only [stepOwner, releaseBorrowImmutable]
      split
      · exact ⟨h0, h1⟩
      · rename_i hc
        refine ⟨by dsimp only; omega, fun hx => h1 ⟨hx.1, by dsimp only at hx; omega⟩⟩
  | acquireMut =>
      simp only [stepOwner, acquireMutableBorrow]
      split
      · exact ⟨h0, h1⟩
      · rename_i hc
        exact ⟨h0, fun hx => hc (Or.inl hx.2)⟩
  | releaseMut =>
      simp only [stepOwner, releaseMutableBorrow]
      split
      · exact ⟨h0, by simp⟩
      · exact ⟨h0, h1⟩
  | destroy =>
      simp only [stepOwner, destroyUnique]
      split
      · exact ⟨h0, h1⟩
      · exact ⟨h0, h1⟩
  | moveAssignIntoFrom src =>
      obtain ⟨g0, g1⟩ := hop
      simp only [stepOwner, moveAssign]
      split
      · exact ⟨h0, h1⟩
      · split
        · exact ⟨h0, h1⟩
        · rename_i hc
          exact ⟨g0, by simp_all⟩
  | moveAssignOutTo dst =>
      simp only [stepOwner, moveAssign]
      split
      · exact ⟨h0, h1⟩
      · split
        · exact ⟨h0, h1⟩
        · exact ⟨by dsimp only; omega, by simp⟩
  | moveCtorOut =>
      simp only [stepOwner, moveConstruct]
      split
      · exact ⟨h0, h1⟩
      · exact ⟨by dsimp only; omega, by simp⟩
  | accessMut => exact ⟨h0, h1⟩
  | accessConst => exact ⟨h0, h1⟩

/-- Folding any sequence of well-formed operations preserves the
invariant. -/
theorem inv_foldl (s : UniqueState α) (ops : List (OwnerOp α))
    (hs : Inv s) (hops : ∀ op ∈ ops, OwnerOpOK op) :
    Inv (ops.foldl stepOwner s) := by
  induction ops generalizing s with
  | nil => exact hs
  | cons op rest ih =>
      exact ih (stepOwner s op)
        (inv_stepOwner s op hs (hops op (by simp)))
        (fun o ho => hops o (by simp [ho]))

/-- Reading a slot just written returns the written state. -/
theorem World.get_set_same (w : World α) (o : OwnerId) (s : UniqueState α) :
    (w.set o s).get o = s := by
  cases o <;> simp [World.get, World.set]

/-- Writing one slot leaves the other slot unchanged. -/
theorem World.get_set_ne (w : World α) (o o1 : OwnerId) (s : UniqueState α)
    (h : o ≠ o1) : (w.set o s).get o1 = w.get o1 := by
  cases o <;> cases o1 <;> simp_all [World.get, World.set]

/-- Claim C1: for every Unique owner, after any sequence of
acquire/release/destroy/relocate/direct-access operations starting from
construction, the borrow state never has the exclusive flag set while the
shared count is positive, and the shared count is never negative. -/
theorem C1_borrow_state_invariant (ptr : Option α) (ops : List (OwnerOp α))
    (hops : ∀ op ∈ ops, OwnerOpOK op) :
    Inv (ops.foldl stepOwner (mkUnique ptr)) :=
  inv_foldl (mkUnique ptr) ops (by exact ⟨by simp [mkUnique], by simp [mkUnique]⟩) hops

/-- Witness for C1 at a concrete operation sequence. -/
theorem C1_borrow_state_invariant_witness :
    Inv (([OwnerOp.acquireImm, OwnerOp.acquireImm, OwnerOp.releaseImm,
           OwnerOp.releaseImm, OwnerOp.acquireMut, OwnerOp.releaseMut,
           OwnerOp.moveAssignIntoFrom (mkUnique (some 3)), OwnerOp.destroy,
           OwnerOp.accessConst] : List (OwnerOp Nat)).foldl stepOwner
          (mkUnique (some 0))) :=
  C1_borrow_state_invariant (some 0) _ (by decide)

/-- Claim C2: each of acquireImmutableBorrow, acquireMutableBorrow,
releaseBorrowImmutable, releaseMutableBorrow, the destructor, move
construction and move assignment either fully succeeds with its defined
mutation or raises an error leaving the borrow state exactly equal to its
pre-call value. -/
theorem C2_failure_is_noop (s dst src : UniqueState α) :
    (∀ e, (acquireImmutableBorrow s).1 = Except.error e →
      (acquireImmutableBorrow s).2 = s) ∧
    (∀ e, (acquireMutableBorrow s).1 = Except.error e →
      (acquireMutableBorrow s).2 = s) ∧
    (∀ e, (releaseBorrowImmutable s).1 = Except.error e →
      (releaseBorrowImmutable s).2 = s) ∧
    (∀ e, (releaseMutableBorrow s).1 = Except.error e →
      (releaseMutableBorrow s).2 = s) ∧
    (∀ e, (destroyUnique s).1 = Except.error e → (destroyUnique s).2 = s) ∧
    (∀ e, (moveConstruct s).1 = Except.error e → (moveConstruct s).2 = s) ∧
    (∀ e, (moveAssign dst src).1 = Except.error e →
      (moveAssign dst src).2.1 = dst ∧ (moveAssign dst src).2.2 = src) := by
  refine ⟨?_, ?_, ?_, ?_, ?_, ?_, ?_⟩ <;> intro e he
  · simp only [acquireImmutableBorrow] at he ⊢
    split at he <;> simp_all
  · simp only [acquireMutableBorrow] at he ⊢
    split at he <;> simp_all
  · simp only [releaseBorrowImmutable] at he ⊢
    split at he <;> simp_all
  · simp only [releaseMutableBorrow] at he ⊢
    split at he <;> simp_all
  · simp only [destroyUnique] at he ⊢
    split at he <;> simp_all
  · simp only [moveConstruct] at he ⊢
    split at he <;> simp_all
  · by_cases h1 : 0 < dst.immutable_borrows ∨ dst.mutable_borrowed
    · simp [moveAssign, h1]
    · by_cases h2 : 0 < src.immutable_borrows ∨ src.mutable_borrowed
      · simp [moveAssign, h1, h2]
      · simp [moveAssign, h1, h2] at he

/-- Witness for C2 at concrete failing calls. -/
theorem C2_failure_is_noop_witness :
    (acquireImmutableBorrow (⟨some 1, 0, true⟩ : UniqueState Nat)).2
      = ⟨some 1, 0, true⟩ ∧
    (moveAssign (⟨some 1, 1, false⟩ : UniqueState Nat) ⟨some 2, 0, false⟩).2.1
      = ⟨some 1, 1, false⟩ := by
  constructor
  · exact (C2_failure_is_noop (⟨some 1, 0, true⟩ : UniqueState Nat)
      ⟨some 1, 1, false⟩ ⟨some 2, 0, false⟩).1
      ErrorCode.MutableBorrowOfMutablyBorrowed (by decide)
  · exact ((C2_failure_is_noop (⟨some 1, 0, true⟩ : UniqueState Nat)
      ⟨some 1, 1, false⟩ ⟨some 2, 0, false⟩).2.2.2.2.2.2
      ErrorCode.MoveIntoWithActiveBorrows (by decide)).1

/-- Claim C3 counterexample: it is not the case that move assignment fails
with the relocate-source kind whenever the source has nonzero borrow state
and with the relocate-destination kind whenever the destination has nonzero
borrow state: when both sides are borrowed the code raises only the
destination kind, refuting the source clause at a concrete input. -/
theorem C3_claim_false :
    ¬ (∀ (dst src : UniqueState Nat),
        ((0 < src.immutable_borrows ∨ src.mutable_borrowed) →
          (moveAssign dst src).1
            = Except.error ErrorCode.MoveFromWithActiveBorrows) ∧
        ((0 < dst.immutable_borrows ∨ dst.mutable_borrowed) →
          (moveAssign dst src).1
            = Except.error ErrorCode.MoveIntoWithActiveBorrows)) := fun h =>
  absurd ((h ⟨some 1, 1, false⟩ ⟨some 2, 1, false⟩).1 (by decide)) (by decide)

/-- Claim C3 amended: move assignment checks the destination first, so it
fails with the relocate-destination kind whenever the destination has
nonzero borrow state; only with a clean destination does it fail with the
relocate-source kind when the source has nonzero borrow state; on success
the destination holds the resource with zeroed borrow state and the source
becomes empty. -/
theorem C3_move_assign_amended (dst src : UniqueState α)
    (hsrc : 0 ≤ src.immutable_borrows) :
    ((0 < dst.immutable_borrows ∨ dst.mutable_borrowed) →
      (moveAssign dst src).1 = Except.error ErrorCode.MoveIntoWithActiveBorrows ∧
      (moveAssign dst src).2.1 = dst ∧ (moveAssign dst src).2.2 = src) ∧
    (¬(0 < dst.immutable_borrows ∨ dst.mutable_borrowed) →
      (0 < src.immutable_borrows ∨ src.mutable_borrowed) →
      (moveAssign dst src).1 = Except.error ErrorCode.MoveFromWithActiveBorrows ∧
      (moveAssign dst src).2.1 = dst ∧ (moveAssign dst src).2.2 = src) ∧
    (¬(0 < dst.immutable_borrows ∨ dst.mutable_borrowed) →
      ¬(0 < src.immutable_borrows ∨ src.mutable_borrowed) →
      (moveAssign dst src).1 = Except.ok () ∧
      (moveAssign dst src).2.1
        = { data := src.data, immutable_borrows := 0, mutable_borrowed := false } ∧
      (moveAssign dst src).2.2
        = { data := none, immutable_borrows := 0, mutable_borrowed := false }) := by
  refine ⟨fun h1 => ?_, fun h1 h2 => ?_, fun h1 h2 => ?_⟩
  · simp [moveAssign, h1]
  · simp [moveAssign, h1, h2]
  · have hz : src.immutable_borrows = 0 := by
      rcases not_or.mp h2 with ⟨ha, _⟩
      omega
    have hm : src.mutable_borrowed = false := by
      rcases not_or.mp h2 with ⟨_, hb⟩
      simpa using hb
    simp [moveAssign, h1, h2, hz, hm]

/-- Witness for the amended C3 at concrete inputs covering the
clean-destination failure and the success case. -/
theorem C3_move_assign_amended_witness :
    ((moveAssign (⟨some 1, 0, false⟩ : UniqueState Nat) ⟨some 2, 1, false⟩).1
      = Except.error ErrorCode.MoveFromWithActiveBorrows) ∧
    ((moveAssign (⟨some 1, 0, false⟩ : UniqueState Nat) ⟨some 2, 0, false⟩).1
      = Except.ok ()) ∧
    ((moveAssign (⟨some 1, 0, false⟩ : UniqueState Nat) ⟨some 2, 0, false⟩).2.2
      = ⟨none, 0, false⟩) := by
  refine ⟨?_, ?_, ?_⟩
  · exact ((C3_move_assign_amended (⟨some 1, 0, false⟩ : UniqueState Nat)
      ⟨some 2, 1, false⟩ (by decide)).2.1 (by decide) (by decide)).1
  · exact ((C3_move_assign_amended (⟨some 1, 0, false⟩ : UniqueState Nat)
      ⟨some 2, 0, false⟩ (by decide)).2.2 (by decide) (by decide)).1
  · exact ((C3_move_assign_amended (⟨some 1, 0, false⟩ : UniqueState Nat)
      ⟨some 2, 0, false⟩ (by decide)).2.2 (by decide) (by decide)).2.2

/-- Claim C4: acquiring an exclusive borrow fails exactly when the shared
count is positive or the exclusive flag is already set, every failure
carries the one combined error code, and otherwise the exclusive flag is set
to true. -/
theorem C4_acquire_exclusive_gate (s : UniqueState α) :
    ((∃ e, (acquireMutableBorrow s).1 = Except.error e) ↔
      (0 < s.immutable_borrows ∨ s.mutable_borrowed)) ∧
    (∀ e, (acquireMutableBorrow s).1 = Except.error e →
      e = ErrorCode.MutableBorrowOfImmutablyBorrowed) ∧
    (¬(0 < s.immutable_borrows ∨ s.mutable_borrowed) →
      (acquireMutableBorrow s).1 = Except.ok () ∧
      (acquireMutableBorrow s).2 = { s with mutable_borrowed := true }) := by
  by_cases h : 0 < s.immutable_borrows ∨ s.mutable_borrowed <;>
    simp [acquireMutableBorrow, h]

/-- Witness for C4 at concrete borrowed and free states. -/
theorem C4_acquire_exclusive_gate_witness :
    (∃ e, (acquireMutableBorrow (⟨some 1, 2, false⟩ : UniqueState Nat)).1
      = Except.error e) ∧
    ((acquireMutableBorrow (⟨some 1, 0, false⟩ : UniqueState Nat)).2
      = ⟨some 1, 0, true⟩) := by
  constructor
  · exact (C4_acquire_exclusive_gate
      (⟨some 1, 2, false⟩ : UniqueState Nat)).1.mpr (by decide)
  · exact ((C4_acquire_exclusive_gate
      (⟨some 1, 0, false⟩ : UniqueState Nat)).2.2 (by decide)).2

/-- Claim C5: destruction fails with the destroy-while-borrowed code exactly
when the shared count is positive or the exclusive flag is set, and
otherwise succeeds (releasing the resource); with exactly one live shared
borrow destroy fails, and after releasing that borrow destroy succeeds. -/
theorem C5_destroy_gate (s : UniqueState α) :
    ((destroyUnique s).1 = Except.error ErrorCode.DestroyWithActiveBorrows ↔
      (0 < s.immutable_borrows ∨ s.mutable_borrowed)) ∧
    (¬(0 < s.immutable_borrows ∨ s.mutable_borrowed) →
      (destroyUnique s).1 = Except.ok ()) ∧
    (s.immutable_borrows = 1 → s.mutable_borrowed = false →
      (destroyUnique s).1 = Except.error ErrorCode.DestroyWithActiveBorrows ∧
      (destroyUnique (releaseBorrowImmutable s).2).1 = Except.ok ()) := by
  refine ⟨?_, fun h => ?_, fun h1 h2 => ?_⟩
  · by_cases h : 0 < s.immutable_borrows ∨ s.mutable_borrowed <;>
      simp [destroyUnique, h]
  · simp [destroyUnique, h]
  · refine ⟨by simp [destroyUnique, h1], ?_⟩
    simp only [releaseBorrowImmutable, h1]
    norm_num
    simp [destroyUnique, h2]

/-- Witness for C5 in the one-live-shared-borrow scenario. -/
theorem C5_destroy_gate_witness :
    (destroyUnique (⟨some 7, 1, false⟩ : UniqueState Nat)).1
      = Except.error ErrorCode.DestroyWithActiveBorrows ∧
    (destroyUnique
        (releaseBorrowImmutable (⟨some 7, 1, false⟩ : UniqueState Nat)).2).1
      = Except.ok () :=
  (C5_destroy_gate (⟨some 7, 1, false⟩ : UniqueState Nat)).2.2 rfl rfl

/-- Claim C6: const direct access (operator->, operator*, get) fails with
the mutably-borrowed access code exactly when the exclusive flag is set and
is never blocked by a positive shared count alone, while non-const direct
access fails whenever the shared count is positive or the exclusive flag is
set. -/
theorem C6_direct_access_gate (s : UniqueState α) :
    ((opArrowConst s = Except.error ErrorCode.AccessWhileMutablyBorrowed) ↔
      s.mutable_borrowed) ∧
    opStarConst s = opArrowConst s ∧
    getConst s = opArrowConst s ∧
    (s.mutable_borrowed = false → opArrowConst s = Except.ok s.data) ∧
    ((opArrow s = Except.error ErrorCode.AccessWhileBorrowed) ↔
      (0 < s.immutable_borrows ∨ s.mutable_borrowed)) ∧
    opStar s = opArrow s ∧
    get s = opArrow s ∧
    (¬(0 < s.immutable_borrows ∨ s.mutable_borrowed) →
      opArrow s = Except.ok s.data) := by
  refine ⟨?_, rfl, rfl, fun h => ?_, ?_, rfl, rfl, fun h => ?_⟩
  · by_cases h : s.mutable_borrowed <;> simp [opArrowConst, h]
  · simp [opArrowConst, h]
  · by_cases h : 0 < s.immutable_borrows ∨ s.mutable_borrowed <;>
      simp [opArrow, h]
  · simp [opArrow, h]

/-- Witness for C6: a positive shared count alone blocks mutating access but
not const access. -/
theorem C6_direct_access_gate_witness :
    opArrowConst (⟨some 4, 3, false⟩ : UniqueState Nat) = Except.ok (some 4) ∧
    opArrow (⟨some 4, 3, false⟩ : UniqueState Nat)
      = Except.error ErrorCode.AccessWhileBorrowed := by
  constructor
  · exact (C6_direct_access_gate (⟨some 4, 3, false⟩ : UniqueState Nat)).2.2.2.1 rfl
  · exact (C6_direct_access_gate
      (⟨some 4, 3, false⟩ : UniqueState Nat)).2.2.2.2.1.mpr (by decide)

/-- Claim C7: when the acquire succeeds, acquireImmutableBorrow followed by
releaseBorrowImmutable restores the prior shared count, and
acquireMutableBorrow followed by releaseMutableBorrow restores the prior
exclusive flag (the nonnegative-count hypothesis states that s is the state
of a real owner, which C1 guarantees). -/
theorem C7_round_trip (s : UniqueState α) :
    (0 ≤ s.immutable_borrows →
      (acquireImmutableBorrow s).1 = Except.ok () →
      ((releaseBorrowImmutable (acquireImmutableBorrow s).2).2).immutable_borrows
        = s.immutable_borrows) ∧
    ((acquireMutableBorrow s).1 = Except.ok () →
      ((releaseMutableBorrow (acquireMutableBorrow s).2).2).mutable_borrowed
        = s.mutable_borrowed) := by
  constructor
  · intro h0 hok
    by_cases hmb : s.mutable_borrowed
    · simp [acquireImmutableBorrow, hmb] at hok
    · simp [acquireImmutableBorrow, hmb, releaseBorrowImmutable]
      rw [if_neg (by omega)]
  · intro hok
    by_cases h : 0 < s.immutable_borrows ∨ s.mutable_borrowed
    · simp [acquireMutableBorrow, h] at hok
    · rcases not_or.mp h with ⟨ha, hb⟩
      have hmb : s.mutable_borrowed = false := by simpa using hb
      simp [acquireMutableBorrow, releaseMutableBorrow, ha, hmb]

/-- Witness for C7 at concrete free states. -/
theorem C7_round_trip_witness :
    UniqueState.immutable_borrows ((releaseBorrowImmutable
      (acquireImmutableBorrow (⟨some 9, 2, false⟩ : UniqueState Nat)).2).2) = 2 ∧
    UniqueState.mutable_borrowed ((releaseMutableBorrow
      (acquireMutableBorrow (⟨some 9, 0, false⟩ : UniqueState Nat)).2).2) = false := by
  constructor
  · exact (C7_round_trip (⟨some 9, 2, false⟩ : UniqueState Nat)).1
      (by decide) (by decide)
  · exact (C7_round_trip (⟨some 9, 0, false⟩ : UniqueState Nat)).2 (by decide)

/-- Claim C8: reassigning a shared borrow handle to a handle with a distinct
owner releases one unit of the current owner's shared count, switches the
back-reference to the other owner and re-acquires one unit there, so when
the re-acquire succeeds the old owner's count drops by one and the new
owner's count rises by one. -/
theorem C8_reassign_shifts_counts (w : World α) (h other : BorrowedHandle α)
    (hne : h.owner ≠ other.owner)
    (hlive : 0 < (w.get h.owner).immutable_borrows)
    (hfree : (w.get other.owner).mutable_borrowed = false) :
    (borrowedCopyAssign w h other).1 = Except.ok () ∧
    UniqueState.immutable_borrows
        ((borrowedCopyAssign w h other).2.1.get h.owner)
      = (w.get h.owner).immutable_borrows - 1 ∧
    UniqueState.immutable_borrows
        ((borrowedCopyAssign w h other).2.1.get other.owner)
      = (w.get other.owner).immutable_borrows + 1 ∧
    (borrowedCopyAssign w h other).2.2
      = { owner := other.owner, data := other.data } := by
  have hrel : releaseBorrowImmutable (w.get h.owner)
      = (Except.ok (), { w.get h.owner with
          immutable_borrows := (w.get h.owner).immutable_borrows - 1 }) := by
    unfold releaseBorrowImmutable
    rw [if_neg (by omega)]
  have hacq : acquireImmutableBorrow (w.get other.owner)
      = (Except.ok (), { w.get other.owner with
          immutable_borrows := (w.get other.owner).immutable_borrows + 1 }) := by
    unfold acquireImmutableBorrow
    rw [if_neg (by simp [hfree])]
  simp only [borrowedCopyAssign, hrel, World.get_set_ne _ _ _ _ hne, hacq,
    World.get_set_ne _ _ _ _ (Ne.symm hne), World.get_set_same]
  simp

/-- Witness for C8 on a concrete two-owner world. -/
theorem C8_reassign_shifts_counts_witness :
    (borrowedCopyAssign
        (⟨⟨some 1, 2, false⟩, ⟨some 2, 0, false⟩⟩ : World Nat)
        ⟨false, some 1⟩ ⟨true, some 2⟩).1 = Except.ok () ∧
    UniqueState.immutable_borrows ((borrowedCopyAssign
        (⟨⟨some 1, 2, false⟩, ⟨some 2, 0, false⟩⟩ : World Nat)
        ⟨false, some 1⟩ ⟨true, some 2⟩).2.1.get false) = 1 ∧
    UniqueState.immutable_borrows ((borrowedCopyAssign
        (⟨⟨some 1, 2, false⟩, ⟨some 2, 0, false⟩⟩ : World Nat)
        ⟨false, some 1⟩ ⟨true, some 2⟩).2.1.get true) = 1 := by
  have hmain := C8_reassign_shifts_counts
    (⟨⟨some 1, 2, false⟩, ⟨some 2, 0, false⟩⟩ : World Nat)
    ⟨false, some 1⟩ ⟨true, some 2⟩ (by decide) (by decide) (by decide)
  exact ⟨hmain.1, hmain.2.1, hmain.2.2.1⟩

/-- Claim C9: an owner left empty by a completed ownership transfer has null
data and zero borrows; requesting a shared borrow from it succeeds without
error, increments the shared count to one, and yields a handle whose get
returns the null pointer. -/
theorem C9_borrow_from_consumed_owner :
    (∀ (dst src : UniqueState α), (moveAssign dst src).1 = Except.ok () →
      (moveAssign dst src).2.2 = mkUnique none) ∧
    (borrow (mkUnique (none : Option α))).1 = Except.ok { data := none } ∧
    UniqueState.immutable_borrows ((borrow (mkUnique (none : Option α))).2) = 1 ∧
    BorrowedState.get { data := (none : Option α) } = none := by
  refine ⟨?_, rfl, rfl, rfl⟩
  intro dst src hok
  by_cases h1 : 0 < dst.immutable_borrows ∨ dst.mutable_borrowed
  · simp [moveAssign, h1] at hok
  · by_cases h2 : 0 < src.immutable_borrows ∨ src.mutable_borrowed
    · simp [moveAssign, h1, h2] at hok
    · simp [moveAssign, h1, h2, mkUnique]

/-- Witness for C9: a concrete completed transfer leaves exactly the empty
owner state. -/
theorem C9_borrow_from_consumed_owner_witness :
    (moveAssign (⟨some 5, 0, false⟩ : UniqueState Nat) ⟨some 6, 0, false⟩).2.2
      = mkUnique none :=
  (C9_borrow_from_consumed_owner (α := Nat)).1
    ⟨some 5, 0, false⟩ ⟨some 6, 0, false⟩ (by decide)

/-- Claim C10: move assignment between distinct exclusive borrow handles
releases the exclusive flag of the target's live owner, takes over the
source's owner and data and nulls the source's back-reference; the source's
destruction then releases nothing, and destroying the target releases the
remaining acquisition, so each successful exclusive acquisition is released
exactly once and without errors. -/
theorem C10_mut_move_assign_release_once (w : World α)
    (target source : BorrowedMutHandle α) (o1 o2 : OwnerId)
    (ht : target.owner = some o1) (hs : source.owner = some o2) (hne : o1 ≠ o2)
    (h1 : (w.get o1).mutable_borrowed = true)
    (h2 : (w.get o2).mutable_borrowed = true) :
    (borrowedMutMoveAssign w target source).1 = Except.ok () ∧
    UniqueState.mutable_borrowed
        ((borrowedMutMoveAssign w target source).2.1.get o1) = false ∧
    (borrowedMutMoveAssign w target source).2.2.1
      = { owner := source.owner, data := source.data } ∧
    (borrowedMutMoveAssign w target source).2.2.2
      = { owner := none, data := none } ∧
    borrowedMutDestruct (borrowedMutMoveAssign w target source).2.1
        (borrowedMutMoveAssign w target source).2.2.2
      = (Except.ok (), (borrowedMutMoveAssign w target source).2.1) ∧
    (borrowedMutDestruct (borrowedMutMoveAssign w target source).2.1
        (borrowedMutMoveAssign w target source).2.2.1).1 = Except.ok () ∧
    UniqueState.mutable_borrowed
        (((borrowedMutDestruct (borrowedMutMoveAssign w target source).2.1
          (borrowedMutMoveAssign w target source).2.2.1).2).get o2) = false ∧
    UniqueState.mutable_borrowed
        (((borrowedMutDestruct (borrowedMutMoveAssign w target source).2.1
          (borrowedMutMoveAssign w target source).2.2.1).2).get o1) = false := by
  have hrel1 : releaseMutableBorrow (w.get o1)
      = (Except.ok (), { w.get o1 with mutable_borrowed := false }) := by
    unfold releaseMutableBorrow
    rw [if_pos h1]
  have hrel2 : releaseMutableBorrow (w.get o2)
      = (Except.ok (), { w.get o2 with mutable_borrowed := false }) := by
    unfold releaseMutableBorrow
    rw [if_pos h2]
  simp only [borrowedMutMoveAssign, ht, hrel1, borrowedMutDestruct, hs,
    World.get_set_ne _ _ _ _ hne, hrel2,
    World.get_set_ne _ _ _ _ (Ne.symm hne), World.get_set_same]
  simp

/-- Witness for C10 on a concrete two-owner world with two live exclusive
handles. -/
theorem C10_mut_move_assign_release_once_witness :
    (borrowedMutMoveAssign
        (⟨⟨some 1, 0, true⟩, ⟨some 2, 0, true⟩⟩ : World Nat)
        ⟨some false, some 1⟩ ⟨some true, some 2⟩).1 = Except.ok () ∧
    (borrowedMutMoveAssign
        (⟨⟨some 1, 0, true⟩, ⟨some 2, 0, true⟩⟩ : World Nat)
        ⟨some false, some 1⟩ ⟨some true, some 2⟩).2.2.2
      = ⟨none, none⟩ := by
  have hmain := C10_mut_move_assign_release_once
    (⟨⟨some 1, 0, true⟩, ⟨some 2, 0, true⟩⟩ : World Nat)
    ⟨some false, some 1⟩ ⟨some true, some 2⟩ false true
    rfl rfl (by decide) rfl rfl
  exact ⟨hmain.1, hmain.2.2.2.1⟩

end RustBorrow
